import Mathlib

/-!
Shallow embedding of the synthesis core of `schevinengen.ino` (the
"West Coast Osc" / "Scheveningen" oscillator for the Ginko Grains module,
with the MIDI additions).  Machine integers are modelled as `Nat` with
explicit reductions `% 65536` (uint16), `% 4294967296` (uint32) and
`% 256` (uint8) exactly where the C code truncates; bitwise `&` is
`Nat.land` (`&&&`).
-/

set_option maxRecDepth 100000

namespace Scheveningen

/-- `freqTable`: the 1024-entry table mapping CV codes to phase increments
(lines 103-173 of the source). -/
def freqTable : List Nat := [
  69, 69, 69, 69, 70, 70, 70, 70, 70, 71, 71, 71, 71, 72, 72,
  72, 72, 73, 73, 73, 73, 74, 74, 74, 74, 75, 75, 75, 75, 76,
  76, 76, 76, 77, 77, 77, 77, 78, 78, 78, 79, 79, 79, 79, 80,
  80, 80, 80, 81, 81, 81, 82, 82, 82, 82, 83, 83, 83, 83, 84,
  84, 84, 85, 85, 85, 85, 86, 86, 86, 87, 87, 87, 88, 88, 88,
  88, 89, 89, 89, 90, 90, 90, 91, 91, 91, 91, 92, 92, 92, 93,
  93, 93, 94, 94, 94, 95, 95, 95, 96, 96, 96, 97, 97, 97, 98,
  98, 98, 99, 99, 99, 100, 100, 100, 101, 101, 101, 102, 102, 102, 103,
  103, 103, 104, 104, 104, 105, 105, 105, 106, 106, 107, 107, 107, 108, 108,
  108, 109, 109, 109, 110, 110, 111, 111, 111, 112, 112, 112, 113, 113, 114,
  114, 114, 115, 115, 116, 116, 116, 117, 117, 117, 118, 118, 119, 119, 119,
  120, 120, 121, 121, 122, 122, 122, 123, 123, 124, 124, 124, 125, 125, 126,
  126, 127, 127, 127, 128, 128, 129, 129, 130, 130, 130, 131, 131, 132, 132,
  133, 133, 134, 134, 135, 135, 135, 136, 136, 137, 137, 138, 138, 139, 139,
  140, 140, 141, 141, 142, 142, 142, 143, 143, 144, 144, 145, 145, 146, 146,
  147, 147, 148, 148, 149, 149, 150, 150, 151, 151, 152, 152, 153, 154, 154,
  155, 155, 156, 156, 157, 157, 158, 158, 159, 159, 160, 160, 161, 161, 162,
  163, 163, 164, 164, 165, 165, 166, 166, 167, 168, 168, 169, 169, 170, 170,
  171, 172, 172, 173, 173, 174, 175, 175, 176, 176, 177, 178, 178, 179, 179,
  180, 181, 181, 182, 182, 183, 184, 184, 185, 186, 186, 187, 187, 188, 189,
  189, 190, 191, 191, 192, 193, 193, 194, 195, 195, 196, 197, 197, 198, 199,
  199, 200, 201, 201, 202, 203, 203, 204, 205, 205, 206, 207, 207, 208, 209,
  210, 210, 211, 212, 212, 213, 214, 215, 215, 216, 217, 218, 218, 219, 220,
  220, 221, 222, 223, 223, 224, 225, 226, 227, 227, 228, 229, 230, 230, 231,
  232, 233, 234, 234, 235, 236, 237, 238, 238, 239, 240, 241, 242, 242, 243,
  244, 245, 246, 247, 247, 248, 249, 250, 251, 252, 252, 253, 254, 255, 256,
  257, 258, 259, 259, 260, 261, 262, 263, 264, 265, 266, 267, 267, 268, 269,
  270, 271, 272, 273, 274, 275, 276, 277, 278, 278, 279, 280, 281, 282, 283,
  284, 285, 286, 287, 288, 289, 290, 291, 292, 293, 294, 295, 296, 297, 298,
  299, 300, 301, 302, 303, 304, 305, 306, 307, 308, 309, 310, 311, 312, 314,
  315, 316, 317, 318, 319, 320, 321, 322, 323, 324, 325, 327, 328, 329, 330,
  331, 332, 333, 334, 335, 337, 338, 339, 340, 341, 342, 344, 345, 346, 347,
  348, 349, 351, 352, 353, 354, 355, 357, 358, 359, 360, 361, 363, 364, 365,
  366, 368, 369, 370, 371, 373, 374, 375, 376, 378, 379, 380, 382, 383, 384,
  385, 387, 388, 389, 391, 392, 393, 395, 396, 397, 399, 400, 401, 403, 404,
  405, 407, 408, 410, 411, 412, 414, 415, 417, 418, 419, 421, 422, 424, 425,
  427, 428, 429, 431, 432, 434, 435, 437, 438, 440, 441, 443, 444, 446, 447,
  449, 450, 452, 453, 455, 456, 458, 460, 461, 463, 464, 466, 467, 469, 471,
  472, 474, 475, 477, 479, 480, 482, 484, 485, 487, 488, 490, 492, 493, 495,
  497, 498, 500, 502, 504, 505, 507, 509, 510, 512, 514, 516, 517, 519, 521,
  523, 524, 526, 528, 530, 532, 533, 535, 537, 539, 541, 542, 544, 546, 548,
  550, 552, 554, 555, 557, 559, 561, 563, 565, 567, 569, 571, 573, 575, 577,
  579, 580, 582, 584, 586, 588, 590, 592, 594, 596, 598, 600, 602, 605, 607,
  609, 611, 613, 615, 617, 619, 621, 623, 625, 627, 630, 632, 634, 636, 638,
  640, 642, 645, 647, 649, 651, 653, 656, 658, 660, 662, 665, 667, 669, 671,
  674, 676, 678, 681, 683, 685, 687, 690, 692, 695, 697, 699, 702, 704, 706,
  709, 711, 714, 716, 718, 721, 723, 726, 728, 731, 733, 736, 738, 741, 743,
  746, 748, 751, 753, 756, 758, 761, 764, 766, 769, 771, 774, 777, 779, 782,
  784, 787, 790, 793, 795, 798, 801, 803, 806, 809, 812, 814, 817, 820, 823,
  825, 828, 831, 834, 837, 839, 842, 845, 848, 851, 854, 857, 860, 862, 865,
  868, 871, 874, 877, 880, 883, 886, 889, 892, 895, 898, 901, 904, 907, 910,
  914, 917, 920, 923, 926, 929, 932, 935, 939, 942, 945, 948, 951, 955, 958,
  961, 964, 968, 971, 974, 978, 981, 984, 988, 991, 994, 998, 1001, 1004, 1008,
  1011, 1015, 1018, 1022, 1025, 1028, 1032, 1035, 1039, 1042, 1046, 1050, 1053, 1057, 1060,
  1064, 1067, 1071, 1075, 1078, 1082, 1086, 1089, 1093, 1097, 1100, 1104, 1108, 1112, 1115,
  1119, 1123, 1127, 1131, 1135, 1138, 1142, 1146, 1150, 1154, 1158, 1162, 1166, 1170, 1174,
  1178, 1182, 1186, 1190, 1194, 1198, 1202, 1206, 1210, 1214, 1218, 1222, 1226, 1231, 1235,
  1239, 1243, 1247, 1252, 1256, 1260, 1264, 1269, 1273, 1277, 1282, 1286, 1290, 1295, 1299,
  1303, 1308, 1312, 1317, 1321, 1326, 1330, 1335, 1339, 1344, 1348, 1353, 1357, 1362, 1367,
  1371, 1376, 1381, 1385, 1390, 1395, 1399, 1404, 1409, 1414, 1418, 1423, 1428, 1433, 1438,
  1443, 1448, 1452, 1457, 1462, 1467, 1472, 1477, 1482, 1487, 1492, 1497, 1502, 1508, 1513,
  1518, 1523, 1528, 1533, 1538, 1544, 1549, 1554, 1559, 1565, 1570, 1575, 1581, 1586, 1591,
  1597, 1602, 1608, 1613, 1619, 1624, 1630, 1635, 1641, 1646, 1652, 1657, 1663, 1669, 1674,
  1680, 1686, 1691, 1697, 1703, 1709, 1714, 1720, 1726, 1732, 1738, 1744, 1750, 1756, 1762,
  1768, 1774, 1780, 1786, 1792, 1798, 1804, 1810, 1816, 1822, 1828, 1835, 1841, 1847, 1853,
  1860, 1866, 1872, 1879, 1885, 1891, 1898, 1904, 1911, 1917, 1924, 1930, 1937, 1943, 1950,
  1956, 1963, 1970, 1976, 1983, 1990, 1997, 2003, 2010, 2017, 2024, 2031, 2037, 2044, 2051,
  2058, 2065, 2072, 2079, 2086, 2093, 2101, 2108, 2115, 2122, 2129, 2136, 2144, 2151, 2158,
  2165, 2173, 2180, 2188]

/-- `midiTable`: the 61-entry table mapping a clamped MIDI note offset to an
index into `freqTable` (lines 178-184 of the source). -/
def midiTable : List Nat := [
  0, 17, 33, 51, 66, 86, 101, 119, 136, 153, 169, 187, 205, 221, 238,
  255, 273, 290, 307, 325, 341, 359, 375, 393, 410, 427, 444, 461, 478, 495,
  512, 529, 546, 563, 581, 597, 615, 631, 649, 666, 683, 699, 717, 734, 751,
  768, 785, 802, 819, 836, 853, 870, 888, 904, 922, 939, 956, 973, 990, 1007,
  1023]

/-- `mapMIDI` (lines 186-190): chained PROGMEM lookup
`freqTable[midiTable[input]]`; out-of-range reads are modelled with
default 0 (`getD`), never exercised by the verified callers. -/
def mapMIDI (input : Nat) : Nat :=
  freqTable.getD (midiTable.getD input 0) 0

/-- The state touched by the MIDI event handlers: `port` and `portTime`
(portamento globals, lines 77-78), `midinote` (line 82) and the ramp target
last passed to `portRamp.go` (lines 206 and 209; both branches pass
`mapMIDI(midinote)`, they differ only in ramp timing, which is outside this
embedding). -/
structure EventState where
  port : Bool
  portTime : Nat
  midinote : Nat
  rampTarget : Nat
  deriving DecidableEq, Repr

/-- `handleNoteOn` (lines 197-211), pitch side only: stores
`midinote = max(24, min(84, pitch)) - 24` and retargets the ramp at
`mapMIDI(midinote)`. -/
def handleNoteOn (s : EventState) (pitch : Nat) : EventState :=
  let n := max 24 (min 84 pitch) - 24
  { s with midinote := n, rampTarget := mapMIDI n }

/-- `handleControlChange` (lines 221-232): controller 5 toggles portamento;
`portTime = 20 * val`, reduced mod 65536 as the uint16 store does. -/
def handleControlChange (s : EventState) (num val : Nat) : EventState :=
  if num = 5 then
    if val = 0 then { s with port := false }
    else { s with port := true, portTime := 20 * val % 65536 }
  else s

/-- The clamped knob+CV sum `min(1023, analogRead(cv) + analogRead(knob))`
used on lines 286 and 289. -/
def clampedControl (cv knob : Nat) : Nat := min 1023 (cv + knob)

/-- Line 289: `wrap_factor = min(64 + (v >> 1), 511)` where `v` is the
clamped control sum. -/
def wrap_factor_update (v : Nat) : Nat := min (64 + v / 2) 511

/-- Line 290: `neg_wrap_factor = max(wrap_factor >> 1, 64)`. -/
def neg_wrap_factor_update (w : Nat) : Nat := max (w / 2) 64

/-- Lines 300-301: move `follower_offset_current` one step toward
`follower_offset_measured`; the increment is a uint16 `++`, hence mod 65536. -/
def smoothStep (cur meas : Nat) : Nat :=
  if cur < meas then (cur + 1) % 65536
  else if meas < cur then cur - 1
  else cur

/-- Lines 305-310 (and 328-333): the parabolic sine-magnitude approximation.
`v <<= 1; v >>= 8; v *= (~v) & 255; v <<= 2; v >>= 8`, all on uint16
(`~v` on a value below 256 is `65535 - v` in 16 bits). -/
def sineMag (phase : Nat) : Nat :=
  let v1 := phase * 2 % 65536
  let v2 := v1 / 256
  let v3 := v2 * ((65535 - v2) &&& 255) % 65536
  let v4 := v3 * 4 % 65536
  v4 / 256

/-- Lines 311 and 334: the polarity bit is the top bit of the phase;
the C assignment to `bool` makes any nonzero mask result `true`. -/
def polarityOf (phase : Nat) : Bool := phase &&& 32768 != 0

/-- Lines 319-325: the follower phase computed through the uint32
`accumulator`: `acc = lp; acc *= foc; acc >>= 8; acc += lp; acc &= 65535`,
then truncated into the uint16 `follower_phase`. -/
def followerPhaseOf (lp foc : Nat) : Nat :=
  let acc1 := lp % 4294967296
  let acc2 := acc1 * foc % 4294967296
  let acc3 := acc2 / 256
  let acc4 := (acc3 + lp) % 4294967296
  let acc5 := acc4 &&& 65535
  acc5 % 65536

/-- Lines 338-339: ring modulation of the two magnitudes,
`lv *= fv; lv >>= 8` on uint16. -/
def ringMod (lv fv : Nat) : Nat := lv * fv % 65536 / 256

/-- Lines 350-351: `leader_value <<= 2; leader_value >>= 8` on uint16 —
the left shift truncates to 16 bits before the right shift. -/
def rescale16 (v : Nat) : Nat := v * 4 % 65536 / 256

/-- Lines 342-351: halve the ring-mod value (line 342), multiply by the
polarity-selected wrap factor (line 346, uint16), then `rescale16`. -/
def scaleByWrap (rv w : Nat) : Nat := rescale16 (rv / 2 * w % 65536)

/-- Lines 363-366: the final reflection, `if (v > 127) v = 127 - (v & 127)`. -/
def foldLow (v : Nat) (pol : Bool) : Nat × Bool :=
  if 127 < v then (127 - (v &&& 127), pol) else (v, pol)

/-- Lines 355-366: the complete folding step — the masked multi-fold branch
(flip polarity when bit 8 is set, then mask to 8 bits) followed by the
`> 127` reflection. -/
def foldStep (v : Nat) (pol : Bool) : Nat × Bool :=
  if v &&& 65280 != 0 then
    foldLow (v &&& 255) (if v &&& 256 != 0 then !pol else pol)
  else
    foldLow v pol

/-- Lines 369-371: reassemble the unsigned 8-bit output sample.  The
negative branch `127 - v` is computed in (16-bit) signed arithmetic and
stored into a uint8, modelled with an integer `emod`; the positive branch
is a plain uint8 store. -/
def assemble (v : Nat) (pol : Bool) : Nat :=
  if pol then (((127 : Int) - (v : Int)) % 256).toNat
  else (128 + v) % 256

/-- The audio-rate state read and written by `SIGNAL(PWM_INTERRUPT)`. -/
structure SynthState where
  leader_phase : Nat
  phase_inc : Nat
  follower_offset_current : Nat
  follower_offset_measured : Nat
  wrap_factor : Nat
  neg_wrap_factor : Nat
  deriving DecidableEq, Repr

/-- `SIGNAL(PWM_INTERRUPT)` (lines 294-372): one audio tick.  Returns the
updated state and the 8-bit output sample written to `PWM_VALUE`. -/
def pwmInterrupt (s : SynthState) : SynthState × Nat :=
  let lp := (s.leader_phase + s.phase_inc) % 65536
  let foc := smoothStep s.follower_offset_current s.follower_offset_measured
  let lv := sineMag lp
  let lpol := polarityOf lp
  let fp := followerPhaseOf lp foc
  let fv := sineMag fp
  let fpol := polarityOf fp
  let rv := ringMod lv fv
  let rpol := xor lpol fpol
  let w := if rpol then s.wrap_factor else s.neg_wrap_factor
  let sv := scaleByWrap rv w
  let folded := foldStep sv rpol
  let out := assemble folded.1 folded.2
  ({ s with leader_phase := lp, follower_offset_current := foc }, out)

/-- Modelled from the spec: the "scaled value" of §4.4 / claim C1 — the
ring-modulated magnitude halved and scaled by the selected threshold with
exact arithmetic (`(rv >> 1) * w * 4 / 256`, no 16-bit truncation).  The
spec's folding rule reads the period count and its parity from this value. -/
def specScaledValue (rv w : Nat) : Nat := rv / 2 * w * 4 / 256

/-! ### Helper lemmas -/

lemma land_mask16_eq_mod (x : Nat) : x &&& 65535 = x % 65536 := by
  have h := Nat.and_pow_two_sub_one_eq_mod x 16
  norm_num at h
  exact h

lemma land65280_of_lt {x : Nat} (h : x < 256) : x &&& 65280 = 0 := by
  have hall : ∀ y, y < 256 → y &&& 65280 = 0 := by decide
  exact hall x h

lemma foldLow_fst_le (v : Nat) (pol : Bool) : (foldLow v pol).1 ≤ 127 := by
  unfold foldLow
  split
  · exact Nat.sub_le _ _
  · simp_all

lemma foldLow_snd (v : Nat) (pol : Bool) : (foldLow v pol).2 = pol := by
  unfold foldLow
  split <;> rfl

lemma foldStep_fst_le (v : Nat) (pol : Bool) : (foldStep v pol).1 ≤ 127 := by
  unfold foldStep
  split <;> exact foldLow_fst_le _ _

lemma foldStep_of_lt {v : Nat} (h : v < 256) (pol : Bool) :
    foldStep v pol = foldLow v pol := by
  unfold foldStep
  simp [land65280_of_lt h]

lemma rescale16_le (v : Nat) : rescale16 v ≤ 255 := by
  unfold rescale16
  omega

lemma assemble_le (v : Nat) (pol : Bool) : assemble v pol ≤ 255 := by
  unfold assemble
  split
  · have h1 : (0 : Int) ≤ ((127 : Int) - v) % 256 := Int.emod_nonneg _ (by norm_num)
    have h2 : ((127 : Int) - v) % 256 < 256 := Int.emod_lt_of_pos _ (by norm_num)
    omega
  · omega

lemma assemble_true_of_le {v : Nat} (h : v ≤ 127) : assemble v true = 127 - v := by
  unfold assemble
  have he : ((127 : Int) - v) % 256 = (127 : Int) - v :=
    Int.emod_eq_of_lt (by omega) (by omega)
  simp only [if_pos]
  rw [he]
  omega

lemma assemble_false_of_le {v : Nat} (h : v ≤ 127) : assemble v false = 128 + v := by
  unfold assemble
  simp
  omega

lemma midiTable_length : midiTable.length = 61 := by decide

lemma freqTable_length : freqTable.length = 1024 := by decide

lemma midiTable_getD_lt : ∀ n, n < 61 → midiTable.getD n 0 < 1024 := by decide

/-- Boolean check that a list is non-decreasing in adjacent pairs. -/
def monoCheck : List Nat → Bool
  | [] => true
  | [_] => true
  | a :: b :: t => decide (a ≤ b) && monoCheck (b :: t)

lemma monoCheck_sound : ∀ l : List Nat, monoCheck l = true →
    ∀ c, c + 1 < l.length → l.getD c 0 ≤ l.getD (c + 1) 0
  | [], _, c, h => by simp at h
  | [a], _, c, h => by simp at h
  | a :: b :: t, hm, 0, h => by
      simp only [monoCheck, Bool.and_eq_true, decide_eq_true_eq] at hm
      simpa using hm.1
  | a :: b :: t, hm, c + 1, h => by
      simp only [monoCheck, Bool.and_eq_true, decide_eq_true_eq] at hm
      have ih := monoCheck_sound (b :: t) hm.2 c (by simpa using h)
      simpa using ih

lemma freqTable_monoCheck : monoCheck freqTable = true := by decide

/-! ### Claim theorems -/

/-- C10: pitch-table monotonicity — for every adjacent pair of codes `c` and
`c+1` with `c` in `[0,1022]`, `freqTable[c] ≤ freqTable[c+1]`. -/
theorem freqTable_monotone (c : Nat) (h : c ≤ 1022) :
    freqTable.getD c 0 ≤ freqTable.getD (c + 1) 0 := by
  have h2 : c + 1 < freqTable.length := by rw [freqTable_length]; omega
  exact monoCheck_sound freqTable freqTable_monoCheck c h2

/-- Witness for C10 at `c = 511`. -/
theorem freqTable_monotone_witness :
    (511 : Nat) ≤ 1022 ∧ freqTable.getD 511 0 ≤ freqTable.getD 512 0 :=
  ⟨by decide, freqTable_monotone 511 (by decide)⟩

/-- C1: the spec's multi-fold rule fails on the code.  At ring-mod magnitude
252, wrap factor 511, the exact scaled value is 1006: it exceeds the 256
period and its bit 8 is set, so the claimed rule demands a polarity flip; but
the 16-bit truncation inside `leader_value <<= 2` means the interrupt's fold
test sees `1006 % 256 = 238` and the polarity survives unchanged (the masked
branch of `foldStep` is never entered). -/
theorem fold_multifold_divergence :
    specScaledValue 252 511 = 1006 ∧
    256 < specScaledValue 252 511 ∧
    specScaledValue 252 511 &&& 256 ≠ 0 ∧
    scaleByWrap 252 511 = 238 ∧
    scaleByWrap 252 511 = specScaledValue 252 511 % 256 ∧
    foldStep (scaleByWrap 252 511) true = (17, true) := by decide

/-- C2: hard-sync follower phase — for every 16-bit `leader_phase` and every
`follower_offset_current` in `[0,1023]`, the interrupt's accumulator
computation equals `(leader_phase + (leader_phase * offset) >> 8) mod 65536`,
and the 32-bit intermediate product is exact (no overflow). -/
theorem followerPhase_hard_sync (lp foc : Nat) (h1 : lp < 65536) (h2 : foc ≤ 1023) :
    followerPhaseOf lp foc = (lp + lp * foc / 256) % 65536 ∧
    lp * foc % 4294967296 = lp * foc := by
  have hmul : lp * foc < 4294967296 :=
    calc lp * foc ≤ 65535 * 1023 := Nat.mul_le_mul (by omega) h2
    _ < 4294967296 := by norm_num
  refine ⟨?_, Nat.mod_eq_of_lt hmul⟩
  simp only [followerPhaseOf]
  rw [Nat.mod_eq_of_lt (show lp < 4294967296 by omega),
    Nat.mod_eq_of_lt hmul,
    Nat.mod_eq_of_lt (show lp * foc / 256 + lp < 4294967296 by omega),
    land_mask16_eq_mod]
  omega

/-- Witness for C2 at `leader_phase = 65535`, offset `1023`. -/
theorem followerPhase_hard_sync_witness :
    (65535 : Nat) < 65536 ∧ (1023 : Nat) ≤ 1023 ∧
    followerPhaseOf 65535 1023 = (65535 + 65535 * 1023 / 256) % 65536 :=
  ⟨by decide, by decide, (followerPhase_hard_sync 65535 1023 (by decide) (by decide)).1⟩

/-- C3: fold thresholds — for every clamped control value `v ≤ 1023` the
control loop's `wrap_factor = min(64 + v/2, 511)` lies in `[64,511]` and
`neg_wrap_factor = max(wrap_factor/2, 64)` lies in `[64,255]`, with the
claimed endpoint values at `v = 1023` and `v = 0`. -/
theorem fold_thresholds (v : Nat) (h : v ≤ 1023) :
    wrap_factor_update v = min (64 + v / 2) 511 ∧
    64 ≤ wrap_factor_update v ∧ wrap_factor_update v ≤ 511 ∧
    neg_wrap_factor_update (wrap_factor_update v) =
      max (wrap_factor_update v / 2) 64 ∧
    64 ≤ neg_wrap_factor_update (wrap_factor_update v) ∧
    neg_wrap_factor_update (wrap_factor_update v) ≤ 255 ∧
    wrap_factor_update 1023 = 511 ∧
    neg_wrap_factor_update (wrap_factor_update 1023) = 255 ∧
    wrap_factor_update 0 = 64 ∧
    neg_wrap_factor_update (wrap_factor_update 0) = 64 := by
  unfold wrap_factor_update neg_wrap_factor_update
  refine ⟨rfl, ?_, ?_, rfl, ?_, ?_, by decide, by decide, by decide, by decide⟩ <;> omega

/-- Witness for C3 at `v = 1023`. -/
theorem fold_thresholds_witness :
    (1023 : Nat) ≤ 1023 ∧ wrap_factor_update 1023 = 511 ∧
    neg_wrap_factor_update (wrap_factor_update 1023) = 255 := by
  have h := fold_thresholds 1023 (by decide)
  exact ⟨by decide, h.2.2.2.2.2.2.1, h.2.2.2.2.2.2.2.1⟩

/-- C4: MIDI note clamp — `handleNoteOn` stores
`midinote = clamp(p,24,84) - 24 ∈ [0,60]`, targets the ramp at
`mapMIDI midinote`, agrees with the note pre-clamped to `[24,84]`, and both
table lookups stay in bounds. -/
theorem noteOn_clamp (s : EventState) (p : Nat) (hp : p ≤ 127) :
    (handleNoteOn s p).midinote = max 24 (min 84 p) - 24 ∧
    (handleNoteOn s p).midinote ≤ 60 ∧
    (handleNoteOn s p).rampTarget = mapMIDI ((handleNoteOn s p).midinote) ∧
    handleNoteOn s p = handleNoteOn s (max 24 (min 84 p)) ∧
    (handleNoteOn s p).midinote < midiTable.length ∧
    midiTable.getD ((handleNoteOn s p).midinote) 0 < freqTable.length := by
  have hc : max 24 (min 84 (max 24 (min 84 p))) = max 24 (min 84 p) := by omega
  simp only [handleNoteOn, hc]
  refine ⟨trivial, by omega, trivial, trivial, ?_, ?_⟩
  · rw [midiTable_length]; omega
  · rw [freqTable_length]
    exact midiTable_getD_lt _ (by omega)

/-- Witness for C4 at pitch 127 (clamped to 84). -/
theorem noteOn_clamp_witness :
    (127 : Nat) ≤ 127 ∧
    (handleNoteOn ⟨false, 0, 0, 0⟩ 127).midinote = 60 ∧
    handleNoteOn ⟨false, 0, 0, 0⟩ 127 = handleNoteOn ⟨false, 0, 0, 0⟩ 84 := by
  have h := noteOn_clamp ⟨false, 0, 0, 0⟩ 127 (by decide)
  refine ⟨by decide, ?_, ?_⟩
  · rw [h.1]; decide
  · have h4 := h.2.2.2.1
    have he : max 24 (min 84 127) = 84 := by decide
    rw [he] at h4
    exact h4

/-- C5: follower-offset smoothing — with `measured` fixed, one audio tick
moves `current` by exactly one toward `measured` when they differ, leaves it
fixed when equal, shrinks the distance by exactly one, and never overshoots. -/
theorem offset_smoothing (cur meas : Nat) (h1 : cur < 65536) (h2 : meas < 65536) :
    (cur = meas → smoothStep cur meas = cur) ∧
    (cur < meas → smoothStep cur meas = cur + 1) ∧
    (meas < cur → smoothStep cur meas = cur - 1) ∧
    (cur ≠ meas → Nat.dist (smoothStep cur meas) meas + 1 = Nat.dist cur meas) ∧
    (cur ≤ meas → smoothStep cur meas ≤ meas) ∧
    (meas ≤ cur → meas ≤ smoothStep cur meas) := by
  unfold smoothStep Nat.dist
  refine ⟨?_, ?_, ?_, ?_, ?_, ?_⟩ <;> intro h <;> split_ifs <;> omega

/-- Witness for C5 at `cur = 3, meas = 7` (one step up). -/
theorem offset_smoothing_witness :
    (3 : Nat) < 65536 ∧ (7 : Nat) < 65536 ∧ smoothStep 3 7 = 4 := by
  have h := offset_smoothing 3 7 (by decide) (by decide)
  exact ⟨by decide, by decide, h.2.1 (by decide)⟩

/-- C6: the 16-bit rescale `<<= 2; >>= 8` yields at most 255 for every 16-bit
input, equals `((v * 4) mod 65536) >> 8`, makes the masked fold test
`leader_value & 0xFF00` false, and therefore the polarity inversion inside
that branch never runs — on any scaled value the interrupt can produce. -/
theorem rescale_dead_fold_branch (v : Nat) (_h : v < 65536) :
    rescale16 v ≤ 255 ∧
    rescale16 v = v * 4 % 65536 / 256 ∧
    rescale16 v &&& 65280 = 0 ∧
    (∀ pol : Bool, (foldStep (rescale16 v) pol).2 = pol) ∧
    (∀ rv w : Nat, ∀ pol : Bool, (foldStep (scaleByWrap rv w) pol).2 = pol) := by
  have hlt : ∀ x : Nat, rescale16 x < 256 := fun x =>
    Nat.lt_of_le_of_lt (rescale16_le x) (by norm_num)
  have hsnd : ∀ (x : Nat) (pol : Bool), x < 256 → (foldStep x pol).2 = pol := by
    intro x pol hx
    rw [foldStep_of_lt hx, foldLow_snd]
  refine ⟨rescale16_le v, rfl, land65280_of_lt (hlt v), ?_, ?_⟩
  · exact fun pol => hsnd _ pol (hlt v)
  · exact fun rv w pol => hsnd _ pol (hlt _)

/-- Witness for C6 at `v = 64386` (the largest product the interrupt feeds
into the rescale: `126 * 511`). -/
theorem rescale_dead_fold_branch_witness :
    (64386 : Nat) < 65536 ∧ rescale16 64386 ≤ 255 ∧
    (foldStep (rescale16 64386) true).2 = true := by
  have h := rescale_dead_fold_branch 64386 (by decide)
  exact ⟨by decide, h.1, h.2.2.2.1 true⟩

/-- C7: output assembly — the folded magnitude is always at most 127; the
final sample is `128 + m ∈ [128,255]` on positive polarity and
`127 - m ∈ [0,127]` on negative polarity with no 8-bit wraparound; every
interrupt output is in `[0,255]`; and magnitude 0 maps exactly to the
midpoint pair `128` / `127`. -/
theorem output_assembly (s : SynthState) (v m : Nat) (pol : Bool) (hm : m ≤ 127) :
    (foldStep v pol).1 ≤ 127 ∧
    assemble m false = 128 + m ∧
    128 ≤ assemble m false ∧ assemble m false ≤ 255 ∧
    assemble m true = 127 - m ∧ assemble m true ≤ 127 ∧
    (pwmInterrupt s).2 ≤ 255 ∧
    assemble 0 false = 128 ∧ assemble 0 true = 127 := by
  have hf := assemble_false_of_le hm
  have ht := assemble_true_of_le hm
  refine ⟨foldStep_fst_le v pol, hf, by omega, by omega, ht, by omega, ?_, by decide, by decide⟩
  simp only [pwmInterrupt]
  exact assemble_le _ _

/-- Witness for C7 at magnitude 127. -/
theorem output_assembly_witness :
    (127 : Nat) ≤ 127 ∧ assemble 127 false = 255 ∧ assemble 127 true = 0 := by
  have h := output_assembly ⟨0, 1, 1, 1, 64, 64⟩ 0 127 false (by decide)
  refine ⟨by decide, ?_, ?_⟩
  · rw [h.2.1]
  · rw [h.2.2.2.2.1]

/-- C8: fold idempotence — for every magnitude already in `[0,127]` and every
polarity, the complete folding step returns both unchanged. -/
theorem fold_idempotent (v : Nat) (pol : Bool) (h : v ≤ 127) :
    foldStep v pol = (v, pol) := by
  rw [foldStep_of_lt (by omega)]
  unfold foldLow
  rw [if_neg (by omega)]

/-- Witness for C8 at `v = 100`. -/
theorem fold_idempotent_witness :
    (100 : Nat) ≤ 127 ∧ foldStep 100 true = (100, true) :=
  ⟨by decide, fold_idempotent 100 true (by decide)⟩

/-- C9: control-change handling — controller 5 with value 0 switches
portamento off leaving `portTime` untouched; controller 5 with a positive
value switches it on with `portTime = 20 * val`; any other controller leaves
the state exactly unchanged. -/
theorem control_change (s : EventState) (num val : Nat) (hv : val ≤ 127) :
    (num = 5 → val = 0 → handleControlChange s num val = { s with port := false }) ∧
    (num = 5 → 0 < val →
      handleControlChange s num val = { s with port := true, portTime := 20 * val }) ∧
    (num ≠ 5 → handleControlChange s num val = s) := by
  refine ⟨?_, ?_, ?_⟩
  · intro h5 h0
    simp [handleControlChange, h5, h0]
  · intro h5 h0
    have hm : 20 * val % 65536 = 20 * val := Nat.mod_eq_of_lt (by omega)
    simp [handleControlChange, h5, Nat.pos_iff_ne_zero.mp h0, hm]
  · intro h5
    simp [handleControlChange, h5]

/-- Witness for C9: controller 5 value 10 enables portamento with 200 ms. -/
theorem control_change_witness :
    (10 : Nat) ≤ 127 ∧
    handleControlChange ⟨false, 0, 0, 0⟩ 5 10 = ⟨true, 200, 0, 0⟩ := by
  have h := control_change ⟨false, 0, 0, 0⟩ 5 10 (by decide)
  exact ⟨by decide, h.2.1 rfl (by decide)⟩

end Scheveningen
